import Mathlib

/-!
Verification development for a printing-shop storefront client.

The development shallowly embeds the client-side coordination layer of the
repository: the pricing calculator, the session manager (storage validity
window, backend validation, fail-open initialization), the load-balanced
fetch wrapper with sticky-server failover, the timeout wrapper, the upload
registration flow, the checkout gating logic, and the process-wide
promise-deduplication singletons.  JavaScript strings are modelled by Lean
strings, JavaScript numbers by Rat (all arithmetic in scope is exact),
epoch-millisecond timestamps by Int, and asynchronous interleaving by
explicit event sequences over an explicit registry state.
-/

/- ## JavaScript string primitives, modelled over the character list -/

/-- Does the first list start with the second? -/
def startsList : List Char → List Char → Bool
  | _, [] => true
  | [], _ :: _ => false
  | a :: as, b :: bs => a == b && startsList as bs

/-- Does the first list contain the second as a contiguous sublist? -/
def containsList : List Char → List Char → Bool
  | [], pat => pat.isEmpty
  | h :: t, pat => startsList (h :: t) pat || containsList t pat

/-- JavaScript `hay.includes(pat)`. -/
def jsIncludes (hay pat : String) : Bool :=
  containsList hay.data pat.data

/-- JavaScript `s.startsWith(p)`. -/
def jsStartsWith (s p : String) : Bool :=
  startsList s.data p.data

/-- JavaScript whitespace as used by `String.prototype.trim`. -/
def jsIsSpace (c : Char) : Bool :=
  c == ' ' || c == '\t' || c == '\n' || c == '\r'

/-- JavaScript `s.trim()`. -/
def jsTrim (s : String) : String :=
  ⟨((s.data.dropWhile jsIsSpace).reverse.dropWhile jsIsSpace).reverse⟩

/-- JavaScript `s.toLowerCase()` (ASCII fragment used by the code). -/
def jsToLower (s : String) : String :=
  ⟨s.data.map Char.toLower⟩

/-- JavaScript `s.slice(0, n)`. -/
def jsTake (s : String) (n : Nat) : String :=
  ⟨s.data.take n⟩

/-- JavaScript `s.substring(n)` / drop of a known prefix. -/
def jsDrop (s : String) (n : Nat) : String :=
  ⟨s.data.drop n⟩

/-- JavaScript `list.join(sep)`. -/
def jsJoin (sep : String) : List String → String
  | [] => ""
  | [x] => x
  | x :: y :: rest => x ++ sep ++ jsJoin sep (y :: rest)

/-- Truthiness of an optional string (`undefined` and `""` are falsy). -/
def truthyStr : Option String → Bool
  | none => false
  | some s => !s.isEmpty

/-- Truthiness of an optional boolean (`undefined` is falsy). -/
def truthyBool : Option Bool → Bool
  | none => false
  | some b => b

/-- JavaScript `a || b` on optional strings (falsy left yields right). -/
def jsOr (a b : Option String) : Option String :=
  if truthyStr a then a else b

/-- `JSON.stringify` of a number array, e.g. `[1,2,3]`. -/
def renderNatList (l : List Nat) : String :=
  "[" ++ jsJoin "," (l.map toString) ++ "]"

instance {ε α : Type} [DecidableEq ε] [DecidableEq α] : DecidableEq (Except ε α) :=
  fun x y =>
    match x, y with
    | Except.ok a, Except.ok b =>
      if h : a = b then isTrue (by rw [h])
      else isFalse (by intro hc; cases hc; exact h rfl)
    | Except.error a, Except.error b =>
      if h : a = b then isTrue (by rw [h])
      else isFalse (by intro hc; cases hc; exact h rfl)
    | Except.ok _, Except.error _ => isFalse (by intro hc; cases hc)
    | Except.error _, Except.ok _ => isFalse (by intro hc; cases hc)

/- ## Pricing (src/hooks/usePricing.ts and src/lib/utils calculatePrice) -/

namespace UsePricing

/-- `PricingConfig` from src/lib/types.ts; prices are JavaScript numbers,
modelled as rationals.  Absent optional fields are `none`. -/
structure PricingConfig where
  a4_bw : Rat
  a4_color : Rat
  a3_bw : Option Rat
  a3_color : Option Rat
  a4_matt : Option Rat
  a4_glossy : Option Rat
deriving DecidableEq

/-- Dynamic read `pricing[priceKey]` restricted to the numeric fields (the
boolean `*_enabled` fields never match a `size_mode` key at a call site). -/
def lookupConfig (pc : PricingConfig) (key : String) : Option Rat :=
  if key = "a4_bw" then some pc.a4_bw
  else if key = "a4_color" then some pc.a4_color
  else if key = "a3_bw" then pc.a3_bw
  else if key = "a3_color" then pc.a3_color
  else if key = "a4_matt" then pc.a4_matt
  else if key = "a4_glossy" then pc.a4_glossy
  else none

/-- Truthiness of an optional number (`undefined` and `0` are falsy). -/
def truthyRat : Option Rat → Bool
  | none => false
  | some q => q != 0

/-- `calculatePrice` from src/hooks/usePricing.ts.  `pricing` is the hook
state (null before load).  JavaScript truthiness makes a zero `a4_matt` /
`a4_glossy` fall through to the key lookup. -/
def calculatePrice (pricing : Option PricingConfig) (paperSize colorMode : String)
    (pages copies : Rat) (paperType : String) (duplex : Bool) : Rat :=
  match pricing with
  | none => 0
  | some pc =>
    let pricePerPage : Rat :=
      if paperType = "matt" && truthyRat pc.a4_matt then pc.a4_matt.getD 2
      else if paperType = "glossy" && truthyRat pc.a4_glossy then pc.a4_glossy.getD 2
      else
        let priceKey := jsToLower paperSize ++ "_" ++ colorMode
        match lookupConfig pc priceKey with
        | some candidate => candidate
        | none => pc.a4_bw
    let effectivePages := pages
    let effectiveCopies := copies
    let sheetsMultiplier : Rat := if duplex then 1 else 1
    effectivePages * effectiveCopies * pricePerPage * sheetsMultiplier

end UsePricing

namespace Utils

/-- `calculatePrice` from the utility module in src/lib (pricing passed as a
plain object, read dynamically; `pricing[priceKey] || 2.00` treats a zero
price as falsy). -/
def calculatePrice (paperSize colorMode : String) (pages copies : Rat)
    (pricing : List (String × Rat)) : Rat :=
  let priceKey := jsToLower paperSize ++ "_" ++ colorMode
  let pricePerPage : Rat :=
    match (pricing.find? (fun kv => kv.1 == priceKey)).map Prod.snd with
    | some v => if v = 0 then 2 else v
    | none => 2
  pages * copies * pricePerPage

end Utils

/- ## HTTP layer (src/lib/api.ts) -/

namespace Api

/-- A thrown JavaScript error, identified by its `name` as the code does. -/
structure JsError where
  name : String
  message : String
deriving DecidableEq

/-- The `TimeoutError` raised by `fetchWithTimeout`. -/
def timeoutError (timeoutMs : Nat) : JsError :=
  { name := "TimeoutError"
    message := "Request timed out after " ++ toString timeoutMs ++ "ms. Please try again." }

/-- The `AbortError` a fetch rejects with when its signal fires. -/
def abortError : JsError :=
  { name := "AbortError", message := "The operation was aborted." }

/-- An HTTP response: status code and body text. -/
structure HttpResp where
  status : Nat
  body : String
deriving DecidableEq

/-- `Response.ok`: status in the 2xx range. -/
def HttpResp.respOk (r : HttpResp) : Bool :=
  200 ≤ r.status && r.status < 300

/-- `fetchWithTimeout` from src/lib/api.ts.  The underlying fetch is modelled
by the instant `fetchTime` at which it would settle on its own together with
its outcome; the internal timer aborts at `timeoutMs` and an external abort
signal, when supplied, fires at `extAbortAt` — the abort controller fires at
the earlier of the two.  If the abort fires before the fetch settles, the
fetch rejects with `AbortError`; the catch clause maps any error named
`AbortError` to `TimeoutError` and rethrows every other error unchanged.
`effAbortTime` is the instant the abort controller fires. -/
def effAbortTime (timeoutMs : Nat) (extAbortAt : Option Nat) : Nat :=
  match extAbortAt with
  | none => timeoutMs
  | some a => min a timeoutMs

/-- `fetchWithTimeout`, continued: race the fetch against the abort. -/
def fetchWithTimeout (timeoutMs : Nat) (extAbortAt : Option Nat)
    (fetchTime : Nat) (fetchOutcome : Except JsError HttpResp) :
    Except JsError HttpResp :=
  let raw :=
    if fetchTime < effAbortTime timeoutMs extAbortAt then fetchOutcome
    else Except.error abortError
  match raw with
  | Except.ok r => Except.ok r
  | Except.error e =>
    if e.name == "AbortError" then Except.error (timeoutError timeoutMs)
    else Except.error e

/-- The fixed pool of backend origin servers. -/
def BACKEND_SERVERS : List String :=
  ["https://b12.prane.in/api", "https://b13.prane.in/api", "https://b14.prane.in/api"]

/-- Per-tab load-balancer state: the persisted sticky server
(`localStorage.selectedServer`) and the module-level round-robin index. -/
structure LBState where
  selectedServer : Option String
  currentServerIndex : Nat
deriving DecidableEq

/-- `getNextServer`: pick the server at the round-robin index and advance it. -/
def getNextServer (st : LBState) : String × LBState :=
  (BACKEND_SERVERS.getD st.currentServerIndex "",
   { st with currentServerIndex := (st.currentServerIndex + 1) % BACKEND_SERVERS.length })

/-- `getStickyServer` (browser path): reuse a stored valid server, else
assign the next round-robin server and persist it. -/
def getStickyServer (st : LBState) : String × LBState :=
  match st.selectedServer with
  | some server =>
    if BACKEND_SERVERS.contains server then (server, st)
    else
      let (fresh, st1) := getNextServer st
      (fresh, { st1 with selectedServer := some fresh })
  | none =>
    let (fresh, st1) := getNextServer st
    (fresh, { st1 with selectedServer := some fresh })

/-- `clearStickyServer`. -/
def clearStickyServer (st : LBState) : LBState :=
  { st with selectedServer := none }

/-- The terminal error raised when every server failed. -/
def allServersFailedError : JsError :=
  { name := "Error", message := "All backend servers failed. Please try again later." }

/-- The failover loop of `fetchWithLoadBalancer`: try each remaining server
in order, for at most `budget = min serversToTry.length (maxRetries - 1)`
attempts; a 2xx response becomes the new sticky server; a thrown error or a
non-2xx response moves on to the next server. -/
def tryFallbacks (env : String → Except JsError HttpResp) :
    List String → Nat → LBState → Except JsError HttpResp × LBState
  | [], _, st => (Except.error allServersFailedError, st)
  | srv :: rest, budget, st =>
    if budget = 0 then (Except.error allServersFailedError, st)
    else
      match env srv with
      | Except.ok r =>
        if r.respOk then (Except.ok r, { st with selectedServer := some srv })
        else tryFallbacks env rest (budget - 1) st
      | Except.error _ => tryFallbacks env rest (budget - 1) st

/-- `fetchWithLoadBalancer` from src/lib/api.ts.  `env` gives the outcome of
one request against each origin server (the path and init are fixed for a
single call).  Returns the result together with the updated state. -/
def fetchWithLoadBalancer (env : String → Except JsError HttpResp)
    (retryOnFailure : Bool) (maxRetries : Nat) (st : LBState) :
    Except JsError HttpResp × LBState :=
  let sticky := getStickyServer st
  let stickyServer := sticky.1
  let st1 := sticky.2
  let failover : Except JsError HttpResp × LBState :=
    let st2 := clearStickyServer st1
    let serversToTry := BACKEND_SERVERS.filter (fun s => s != stickyServer)
    tryFallbacks env serversToTry (min serversToTry.length (maxRetries - 1)) st2
  match env stickyServer with
  | Except.ok r =>
    if r.respOk then (Except.ok r, st1)
    else if !retryOnFailure then (Except.ok r, st1)
    else failover
  | Except.error e =>
    if !retryOnFailure then (Except.error e, st1)
    else failover

/-- One attempt fails when it throws or returns a non-2xx response. -/
def attemptFails (o : Except JsError HttpResp) : Prop :=
  match o with
  | Except.ok r => r.respOk = false
  | Except.error _ => True

instance : DecidablePred attemptFails := by
  intro o
  unfold attemptFails
  match o with
  | Except.ok r => exact inferInstanceAs (Decidable (r.respOk = false))
  | Except.error _ => exact inferInstanceAs (Decidable True)

end Api

/- ## Session manager (src/components/StatusBar.tsx, useSessionManager) -/

namespace SessionM

/-- A stored session; `createdAt` is the epoch-millisecond timestamp the
stored ISO string parses to. -/
structure Session where
  sessionId : String
  customerUUID : String
  createdAt : Int
deriving DecidableEq

/-- `SESSION_DURATION = 24 * 60 * 60 * 1000` milliseconds. -/
def SESSION_DURATION : Int := 24 * 60 * 60 * 1000

/-- `getStoredSession`: read the stored session; if its age has reached the
24-hour window, remove it from storage and return null.  Returns the result
together with the storage contents afterwards. -/
def getStoredSession (storage : Option Session) (now : Int) :
    Option Session × Option Session :=
  match storage with
  | none => (none, none)
  | some session =>
    let sessionAge := now - session.createdAt
    if sessionAge < SESSION_DURATION then (some session, some session)
    else (none, none)

/-- `isSessionValid`. -/
def isSessionValid (session : Session) (now : Int) : Bool :=
  now - session.createdAt < SESSION_DURATION

/-- Body of a `/customer/validate-session` response. -/
structure ValidateData where
  success : Option Bool
  valid : Option Bool
deriving DecidableEq

/-- The value `validateSessionWithBackend` resolves with. -/
structure ValidateResult where
  okFlag : Bool
  data : Option ValidateData
deriving DecidableEq

/-- `validateSessionWithBackend` (single-caller data path; the promise
registry is modelled separately): a thrown network/timeout error or a non-OK
status yields `ok = false` with no data, an OK response carries its body. -/
def validateSessionWithBackend
    (net : Except Api.JsError (Api.HttpResp × ValidateData)) : ValidateResult :=
  match net with
  | Except.error _ => { okFlag := false, data := none }
  | Except.ok (resp, data) =>
    if resp.respOk then { okFlag := true, data := some data }
    else { okFlag := false, data := none }

/-- Body of a `/customer/create-session` response. -/
structure CreateData where
  success : Option Bool
  sessionId : Option String
  customerUUID : Option String
deriving DecidableEq

/-- `createNewSession` (single-caller data path): a new session is produced
only from an OK response whose body has truthy `success`, `sessionId` and
`customerUUID`; `createdAt` is the current instant.  Every failure resolves
with null. -/
def createNewSession (net : Except Api.JsError (Api.HttpResp × CreateData))
    (now : Int) : Option Session :=
  match net with
  | Except.error _ => none
  | Except.ok (resp, data) =>
    if resp.respOk then
      if truthyBool data.success && truthyStr data.sessionId &&
          truthyStr data.customerUUID then
        some { sessionId := data.sessionId.getD ""
               customerUUID := data.customerUUID.getD ""
               createdAt := now }
      else none
    else none

/-- Truthiness of `validation.data?.success`. -/
def successOf (v : ValidateResult) : Bool :=
  match v.data with
  | none => false
  | some d => truthyBool d.success

/-- Truthiness of `validation.data?.valid`. -/
def validOf (v : ValidateResult) : Bool :=
  match v.data with
  | none => false
  | some d => truthyBool d.valid

/-- A network call issued during initialization. -/
inductive NetCall
  | validate (customerUUID : String)
  | create
deriving DecidableEq

/-- Observable outcome of one `initializeSession` run. -/
structure InitResult where
  calls : List NetCall
  session : Option Session
  storage : Option Session
  initialized : Bool
  broadcastInit : Bool
  errorMsg : String
deriving DecidableEq

/-- `initializeSession` from src/components/StatusBar.tsx, determinized by
the outcomes of the two possible network calls.  `calls` records the network
requests issued, in order. -/
def initializeSession (storage : Option Session) (now : Int)
    (validateNet : Except Api.JsError (Api.HttpResp × ValidateData))
    (createNet : Except Api.JsError (Api.HttpResp × CreateData)) : InitResult :=
  let stored := getStoredSession storage now
  let storedSession := stored.1
  let storage1 := stored.2
  let createBranch (callsSoFar : List NetCall) : InitResult :=
    match createNewSession createNet now with
    | some newSession =>
      { calls := callsSoFar ++ [NetCall.create]
        session := some newSession
        storage := some newSession
        initialized := true
        broadcastInit := true
        errorMsg := "" }
    | none =>
      { calls := callsSoFar ++ [NetCall.create]
        session := none
        storage := storage1
        initialized := false
        broadcastInit := false
        errorMsg := "Unable to create a new session at this time. Please try again later." }
  match storedSession with
  | some storedS =>
    if isSessionValid storedS now then
      let validation := validateSessionWithBackend validateNet
      if validation.okFlag && successOf validation then
        if validOf validation then
          { calls := [NetCall.validate storedS.customerUUID]
            session := some storedS
            storage := storage1
            initialized := true
            broadcastInit := true
            errorMsg := "" }
        else
          match createNewSession createNet now with
          | some newSession =>
            { calls := [NetCall.validate storedS.customerUUID, NetCall.create]
              session := some newSession
              storage := some newSession
              initialized := true
              broadcastInit := true
              errorMsg := "" }
          | none =>
            { calls := [NetCall.validate storedS.customerUUID, NetCall.create]
              session := none
              storage := none
              initialized := false
              broadcastInit := false
              errorMsg := "Failed to create a new session after validation indicated invalid." }
      else
        { calls := [NetCall.validate storedS.customerUUID]
          session := some storedS
          storage := storage1
          initialized := true
          broadcastInit := true
          errorMsg := "" }
    else
      createBranch []
  | none => createBranch []

/-- The validation outcome counts as failed (fail-open branch) when the call
threw, returned a non-OK status, or returned a body without truthy
`success`. -/
def validationFails
    (net : Except Api.JsError (Api.HttpResp × ValidateData)) : Prop :=
  match net with
  | Except.error _ => True
  | Except.ok (resp, data) => resp.respOk = false ∨ truthyBool data.success = false

instance : DecidablePred validationFails := by
  intro net
  unfold validationFails
  match net with
  | Except.error _ => exact inferInstanceAs (Decidable True)
  | Except.ok (resp, data) => exact inferInstanceAs (Decidable (_ ∨ _))

/-- The validation outcome reports success with a falsy `valid` field: the
only server answer that triggers replacement of a stored session. -/
def validationSaysInvalid
    (net : Except Api.JsError (Api.HttpResp × ValidateData)) : Prop :=
  match net with
  | Except.error _ => False
  | Except.ok (resp, data) =>
    resp.respOk = true ∧ truthyBool data.success = true ∧ truthyBool data.valid = false

instance : DecidablePred validationSaysInvalid := by
  intro net
  unfold validationSaysInvalid
  match net with
  | Except.error _ => exact inferInstanceAs (Decidable False)
  | Except.ok (resp, data) => exact inferInstanceAs (Decidable (_ ∧ _ ∧ _))

end SessionM

/- ## Checkout flow (CheckoutModal, handlePaymentMethod) -/

namespace Checkout

/-- The slice of a staged `FileObject` the checkout flow reads. -/
structure CheckFile where
  name : String
  isPdfMime : Bool
  pages : Nat
  selectedPages : List Nat
  pageSelection : String
  copies : Nat
  paperSize : String
  colorMode : String
  paperType : Option String
  duplex : Option Bool
  backendFileId : Option String
deriving DecidableEq

/-- `file.file.type === "application/pdf" || file.name.toLowerCase().endsWith(".pdf")`. -/
def isPdf (f : CheckFile) : Bool :=
  f.isPdfMime || containsList (jsToLower f.name).data.reverse ".pdf".data.reverse

/-- A file holds a usable backend identifier: a string whose trim is
non-empty.  This is the complement of the `unregisteredFiles` predicate. -/
def hasRegisteredId (f : CheckFile) : Bool :=
  match f.backendFileId with
  | none => false
  | some s => !(jsTrim s).isEmpty

/-- `unregisteredFiles`: files with no (or an all-whitespace) backend id. -/
def unregisteredFiles (files : List CheckFile) : List CheckFile :=
  files.filter (fun f => !hasRegisteredId f)

/-- `fileIdsRaw`: the backend ids collected from the staged files. -/
def collectFileIds (files : List CheckFile) : List String :=
  files.filterMap (fun f =>
    match f.backendFileId with
    | none => none
    | some s => if (jsTrim s).isEmpty then none else some s)

/-- `Array.from(new Set(xs))`: dedupe keeping first occurrences in order. -/
def dedupFirstAux : List String → List String → List String
  | _, [] => []
  | seen, x :: xs =>
    if seen.contains x then dedupFirstAux seen xs
    else x :: dedupFirstAux (x :: seen) xs

/-- Dedupe keeping first occurrences in order. -/
def dedupFirst (l : List String) : List String :=
  dedupFirstAux [] l

/-- How far `handlePaymentMethod` gets before any network traffic: either a
locally thrown error (no request issued), or the `/order/create` POST with
the deduplicated file ids. -/
inductive CheckoutOutcome
  | rejected (msg : String)
  | orderCreate (fileIds : List String)
deriving DecidableEq

/-- The local gating prefix of `handlePaymentMethod` from the checkout
modal: name check, collection of registered backend ids, the two local
rejections, then the `/order/create` request with the deduplicated ids. -/
def handlePaymentMethod (customerName : String) (files : List CheckFile) :
    CheckoutOutcome :=
  if (jsTrim customerName).isEmpty then
    CheckoutOutcome.rejected "Please enter your name to continue."
  else
    let fileIdsRaw := collectFileIds files
    if fileIdsRaw.length = 0 then
      CheckoutOutcome.rejected "No uploaded files registered. Please upload files again."
    else if fileIdsRaw.length ≠ files.length then
      let pendingNames := jsJoin ", " ((unregisteredFiles files).map (fun f => f.name))
      CheckoutOutcome.rejected
        (if pendingNames.isEmpty then
          "Some files are not registered yet. Please wait until all files finish registering and try again."
        else
          "These files are still registering: " ++ pendingNames ++
            ". Please wait a moment and try again.")
    else
      CheckoutOutcome.orderCreate (dedupFirst fileIdsRaw)

/-- `calculateTotal` from the checkout modal: sum over the staged files of
the hook price at the selected page count, with the duplex flag only passed
through for PDF files. -/
def calculateTotal (pricing : Option UsePricing.PricingConfig)
    (files : List CheckFile) : Rat :=
  files.foldl
    (fun total f =>
      let pagesToPrint : Nat :=
        if f.pageSelection = "all" then f.pages else f.selectedPages.length
      total + UsePricing.calculatePrice pricing f.paperSize f.colorMode
        (pagesToPrint : Rat) (f.copies : Rat) (f.paperType.getD "normal")
        ((f.duplex.getD false) && isPdf f))
    0

end Checkout

/- ## Upload registration (src/components/Footer.tsx, registerFileWithBackend) -/

namespace Upload

/-- The two payload shapes `/customer/upload` can be called with. -/
inductive PayloadKind
  | formData
  | json
deriving DecidableEq

/-- Status of one `UploadProgressItem`. -/
inductive ProgStatus
  | uploading
  | registering
  | completed
  | errored
deriving DecidableEq

/-- The nested `file` object of a registration response body. -/
structure RegJsonFile where
  idLower : Option String
  idCap : Option String
  idUpper : Option String
deriving DecidableEq

/-- The id-bearing keys a registration response body is probed for:
`fileId`, `FileId`, `FileID`, `id`, `Id`, `ID` and the nested
`file.id` / `file.Id` / `file.ID`. -/
structure RegJson where
  fileId : Option String
  fileIdCap : Option String
  fileIdUpper : Option String
  idLower : Option String
  idCap : Option String
  idUpper : Option String
  file : Option RegJsonFile
deriving DecidableEq

/-- The `data?.fileId || data?.FileId || ... || data?.file?.ID` chain. -/
def extractFileId (d : RegJson) : Option String :=
  jsOr d.fileId (jsOr d.fileIdCap (jsOr d.fileIdUpper (jsOr d.idLower
    (jsOr d.idCap (jsOr d.idUpper
      (jsOr (d.file.bind (fun f => f.idLower))
        (jsOr (d.file.bind (fun f => f.idCap))
          (d.file.bind (fun f => f.idUpper)))))))))

/-- A `/customer/upload` response: status, body text, and the id fields its
JSON body parses to. -/
structure RegResp where
  status : Nat
  body : String
  ids : RegJson
deriving DecidableEq

/-- `Response.ok` for a registration response. -/
def RegResp.respOk (r : RegResp) : Bool :=
  200 ≤ r.status && r.status < 300

/-- The slice of a staged file `registerFileWithBackend` serializes. -/
structure RegFileObj where
  copies : Option Nat
  paperSize : Option String
  colorMode : Option String
  pages : Option Nat
  pageSelection : Option String
  pageRange : Option String
  selectedPages : Option (List Nat)
deriving DecidableEq

/-- Scheme normalization guard against `https:/` single-slash URLs. -/
def normalizeUrl (u : String) : String :=
  if jsStartsWith u "https:/" && !jsStartsWith u "https://" then
    "https://" ++ jsDrop u 7
  else if jsStartsWith u "http:/" && !jsStartsWith u "http://" then
    "http://" ++ jsDrop u 6
  else u

/-- The multipart form fields appended for the first registration attempt,
in order. -/
def formFields (sessionId customerUUID : String) (fileObj : RegFileObj)
    (normalizedUrl : String) : List (String × String) :=
  [("fileUrl", normalizedUrl),
   ("sessionId", sessionId),
   ("customerUUID", customerUUID),
   ("copies", toString (fileObj.copies.getD 1)),
   ("paperSize", fileObj.paperSize.getD "A4"),
   ("colorMode", fileObj.colorMode.getD "bw"),
   ("totalPages", toString (fileObj.pages.getD 1)),
   ("pageSelection", fileObj.pageSelection.getD "all"),
   ("pageRange", fileObj.pageRange.getD ""),
   ("selectedPages", renderNatList (fileObj.selectedPages.getD []))]

/-- The JSON payload of the automatic retry. -/
structure JsonPayload where
  fileUrl : String
  sessionId : String
  customerUUID : String
  copies : Nat
  paperSize : String
  colorMode : String
  totalPages : Nat
  pageSelection : String
  pageRange : String
  selectedPages : List Nat
deriving DecidableEq

/-- The JSON payload built for the retry attempt. -/
def jsonPayload (sessionId customerUUID : String) (fileObj : RegFileObj)
    (normalizedUrl : String) : JsonPayload :=
  { fileUrl := normalizedUrl
    sessionId := sessionId
    customerUUID := customerUUID
    copies := fileObj.copies.getD 1
    paperSize := fileObj.paperSize.getD "A4"
    colorMode := fileObj.colorMode.getD "bw"
    totalPages := fileObj.pages.getD 1
    pageSelection := fileObj.pageSelection.getD "all"
    pageRange := fileObj.pageRange.getD ""
    selectedPages := fileObj.selectedPages.getD [] }

/-- The JSON payload rendered as key/value pairs, in the order the object
literal writes them. -/
def jsonPayloadFields (p : JsonPayload) : List (String × String) :=
  [("fileUrl", p.fileUrl),
   ("sessionId", p.sessionId),
   ("customerUUID", p.customerUUID),
   ("copies", toString p.copies),
   ("paperSize", p.paperSize),
   ("colorMode", p.colorMode),
   ("totalPages", toString p.totalPages),
   ("pageSelection", p.pageSelection),
   ("pageRange", p.pageRange),
   ("selectedPages", renderNatList p.selectedPages)]

/-- Observable outcome of one `registerFileWithBackend` run for one file:
the `/customer/upload` attempts issued in order, the resolved or thrown
result, the status the file's progress row is left in (`registering` means
the function itself never updated it further and the thrown error is left to
the caller), and the `backendFileId` written to the file state, if any. -/
structure RegOutcome where
  attempts : List PayloadKind
  result : Except String String
  progress : ProgStatus
  backendFileIdSet : Option String
deriving DecidableEq

/-- Shared tail of `registerFileWithBackend` once an OK response is in hand:
probe the body for an id; a missing or empty id still marks the row
completed and resolves with the empty string, without writing
`backendFileId`. -/
def finishRegistration (resp : RegResp) (attempts : List PayloadKind) : RegOutcome :=
  let returnedId := extractFileId resp.ids
  if truthyStr returnedId then
    { attempts := attempts
      result := Except.ok (returnedId.getD "")
      progress := ProgStatus.completed
      backendFileIdSet := some (returnedId.getD "") }
  else
    { attempts := attempts
      result := Except.ok ""
      progress := ProgStatus.completed
      backendFileIdSet := none }

/-- `registerFileWithBackend` from src/components/Footer.tsx, determinized
by the outcome `net` of each `/customer/upload` attempt (keyed by payload
kind; the FormData attempt always comes first). -/
def registerFileWithBackend (net : PayloadKind → Except Api.JsError RegResp) :
    RegOutcome :=
  match net PayloadKind.formData with
  | Except.error e =>
    { attempts := [PayloadKind.formData]
      result := Except.error e.message
      progress := ProgStatus.registering
      backendFileIdSet := none }
  | Except.ok resp =>
    if resp.respOk then finishRegistration resp [PayloadKind.formData]
    else
      let text := resp.body
      if resp.status == 400 && jsIncludes text "MinRequestBodyDataRate" then
        match net PayloadKind.json with
        | Except.error e =>
          { attempts := [PayloadKind.formData, PayloadKind.json]
            result := Except.error e.message
            progress := ProgStatus.registering
            backendFileIdSet := none }
        | Except.ok resp2 =>
          if resp2.respOk then
            finishRegistration resp2 [PayloadKind.formData, PayloadKind.json]
          else
            let serverMsg := jsTake resp2.body 300
            { attempts := [PayloadKind.formData, PayloadKind.json]
              result := Except.error
                ("Failed to register file (" ++ toString resp2.status ++ ") " ++ serverMsg)
              progress := ProgStatus.errored
              backendFileIdSet := none }
      else
        { attempts := [PayloadKind.formData]
          result := Except.error
            ("Failed to register file (" ++ toString resp.status ++ ") " ++ text)
          progress := ProgStatus.registering
          backendFileIdSet := none }

/-- The auto-advance condition of `UploadProgressModal`: every row settled
(`completed` or `error`), at least one row, and no row in error. -/
def modalAutoAdvance (rows : List ProgStatus) : Bool :=
  (rows.all (fun s => s == ProgStatus.completed || s == ProgStatus.errored)) &&
    !rows.isEmpty && !(rows.any (fun s => s == ProgStatus.errored))

end Upload

/- ## Promise-dedup singletons (src/lib/singletons.ts and their callers) -/

namespace Dedup

/-- Registry state for one dedup key.  JavaScript runs the synchronous
prefix of each call atomically (single-threaded event loop), so a caller's
arrival and a promise settling are the only interleaving points.

`registry` is the singleton slot (`getPromise` / `setPromise`), `nextPid`
numbers the promises created so far — each created promise starts exactly
one underlying network request, so `nextPid` is also the network-call count
— `awaits` records which promise each caller ended up awaiting, and
`settled` the promises that have settled. -/
structure DedupState where
  registry : Option Nat
  nextPid : Nat
  awaits : List (Nat × Nat)
  settled : List Nat
deriving DecidableEq

/-- The empty registry. -/
def initState : DedupState :=
  { registry := none, nextPid := 0, awaits := [], settled := [] }

/-- A caller invokes `createNewSession` (the `SessionCreateManager` shape,
shared by `validateSessionWithBackend` for one `customerUUID` key).  If a
promise is registered, the caller returns it — and because that `return`
sits inside the `try` of a `try/finally` whose `finally` runs
`setPromise(null)`, the registry is cleared synchronously, before the
promise settles.  Otherwise the caller starts the network request (creating
promise `nextPid`), registers it, and suspends awaiting it. -/
def sessionArrive (caller : Nat) (s : DedupState) : DedupState :=
  match s.registry with
  | some p =>
    { s with awaits := s.awaits ++ [(caller, p)], registry := none }
  | none =>
    { s with registry := some s.nextPid
             awaits := s.awaits ++ [(caller, s.nextPid)]
             nextPid := s.nextPid + 1 }

/-- Promise `p` settles: the caller that created it resumes from its
`await`, returns, and its `finally` runs `setPromise(null)`
unconditionally. -/
def sessionSettle (p : Nat) (s : DedupState) : DedupState :=
  { s with settled := s.settled ++ [p], registry := none }

/-- A caller runs the `ShopGuard` shop-status check (the
`ShopStatusManager` shape).  A caller that finds a registered promise awaits
it and returns without touching the registry — only the creating caller's
`try/finally` around its own `await` clears the slot, and that `finally`
runs only once the promise settles. -/
def shopArrive (caller : Nat) (s : DedupState) : DedupState :=
  match s.registry with
  | some p =>
    { s with awaits := s.awaits ++ [(caller, p)] }
  | none =>
    { s with registry := some s.nextPid
             awaits := s.awaits ++ [(caller, s.nextPid)]
             nextPid := s.nextPid + 1 }

/-- Promise `p` settles in the shop-status model: the creating caller's
`finally` clears the registry. -/
def shopSettle (p : Nat) (s : DedupState) : DedupState :=
  { s with settled := s.settled ++ [p], registry := none }

/-- A sequence of caller arrivals (no settle in between: the original
request is still in flight throughout). -/
def arrivalsSession (callers : List Nat) : DedupState :=
  callers.foldl (fun s c => sessionArrive c s) initState

/-- Same, for the shop-status manager. -/
def arrivalsShop (callers : List Nat) : DedupState :=
  callers.foldl (fun s c => shopArrive c s) initState

end Dedup

/- ## Theorems -/

/-- Evaluation of the lowercase paper-size key. -/
lemma jsToLower_A4 : jsToLower "A4" = "a4" := rfl

/-- The pricing table `{a4_bw: 2, a4_color: 8}` of the price-calculation
property, as a hook `PricingConfig`. -/
def pricingC8 : UsePricing.PricingConfig :=
  { a4_bw := 2, a4_color := 8, a3_bw := none, a3_color := none,
    a4_matt := none, a4_glossy := none }

/-- C8: given pricing `{a4_bw: 2, a4_color: 8}`,
`calculatePrice("A4", "color", 10, 2)` equals 160 (both in the pricing hook
and in the utility module), the price is `pages * copies * unit-price` for
the resolved `paperSize_colorMode` key, the price factors as
`pages * copies * calculatePrice(..., 1, 1, ...)` for every pricing table,
and changing only `copies` from 2 to 3 scales the result by 3/2. -/
theorem claim_C8_price_linearity :
    UsePricing.calculatePrice (some pricingC8) "A4" "color" 10 2 "normal" false = 160
    ∧ Utils.calculatePrice "A4" "color" 10 2 [("a4_bw", 2), ("a4_color", 8)] = 160
    ∧ (∀ p c : Rat,
        UsePricing.calculatePrice (some pricingC8) "A4" "color" p c "normal" false = p * c * 8)
    ∧ (∀ p c : Rat,
        Utils.calculatePrice "A4" "color" p c [("a4_bw", 2), ("a4_color", 8)] = p * c * 8)
    ∧ (∀ (pricing : Option UsePricing.PricingConfig) (size mode : String)
        (p c : Rat) (ptype : String) (d : Bool),
        UsePricing.calculatePrice pricing size mode p c ptype d
          = p * c * UsePricing.calculatePrice pricing size mode 1 1 ptype d)
    ∧ (∀ (pricing : Option UsePricing.PricingConfig) (size mode : String)
        (p : Rat) (ptype : String) (d : Bool),
        2 * UsePricing.calculatePrice pricing size mode p 3 ptype d
          = 3 * UsePricing.calculatePrice pricing size mode p 2 ptype d) := by
  have hookUnit : ∀ p c : Rat,
      UsePricing.calculatePrice (some pricingC8) "A4" "color" p c "normal" false = p * c * 8 := by
    intro p c
    simp [UsePricing.calculatePrice, UsePricing.lookupConfig, UsePricing.truthyRat,
      pricingC8, jsToLower_A4]
  have utilUnit : ∀ p c : Rat,
      Utils.calculatePrice "A4" "color" p c [("a4_bw", 2), ("a4_color", 8)] = p * c * 8 := by
    intro p c
    simp [Utils.calculatePrice, jsToLower_A4]
  have factor : ∀ (pricing : Option UsePricing.PricingConfig) (size mode : String)
      (p c : Rat) (ptype : String) (d : Bool),
      UsePricing.calculatePrice pricing size mode p c ptype d
        = p * c * UsePricing.calculatePrice pricing size mode 1 1 ptype d := by
    intro pricing size mode p c ptype d
    cases pricing with
    | none => simp [UsePricing.calculatePrice]
    | some pc =>
      simp only [UsePricing.calculatePrice]
      ring
  refine ⟨?_, ?_, hookUnit, utilUnit, factor, ?_⟩
  · rw [hookUnit]; norm_num
  · rw [utilUnit]; norm_num
  · intro pricing size mode p ptype d
    rw [factor pricing size mode p 3, factor pricing size mode p 2]
    ring

/-- C10: the duplex flag has no effect on the computed price — for every
pricing table, paper size, color mode, page count, copy count and paper
finish, `calculatePrice` with `duplex = true` equals `calculatePrice` with
`duplex = false`, and the checkout total is unchanged when every staged
file's duplex flag is overwritten. -/
theorem claim_C10_duplex_noop :
    (∀ (pricing : Option UsePricing.PricingConfig) (size mode : String)
      (pages copies : Rat) (ptype : String),
      UsePricing.calculatePrice pricing size mode pages copies ptype true
        = UsePricing.calculatePrice pricing size mode pages copies ptype false)
    ∧ (∀ (pricing : Option UsePricing.PricingConfig) (files : List Checkout.CheckFile)
        (d : Option Bool),
        Checkout.calculateTotal pricing (files.map (fun f => { f with duplex := d }))
          = Checkout.calculateTotal pricing files) := by
  have base : ∀ (pricing : Option UsePricing.PricingConfig) (size mode : String)
      (pages copies : Rat) (ptype : String) (d1 d2 : Bool),
      UsePricing.calculatePrice pricing size mode pages copies ptype d1
        = UsePricing.calculatePrice pricing size mode pages copies ptype d2 := by
    intro pricing size mode pages copies ptype d1 d2
    cases pricing with
    | none => rfl
    | some pc =>
      simp only [UsePricing.calculatePrice]
      cases d1 <;> cases d2 <;> rfl
  refine ⟨fun pricing size mode pages copies ptype => base _ _ _ _ _ _ _ _, ?_⟩
  intro pricing files d
  unfold Checkout.calculateTotal
  rw [List.foldl_map]
  apply List.foldl_ext
  intro acc f hf
  exact congrArg (fun x => acc + x)
    (base pricing f.paperSize f.colorMode _ _ (f.paperType.getD "normal") _ _)

/-- C4: a stored session created exactly 24h + 1ms ago is expired —
`getStoredSession` removes it from storage and returns null, and the
initialization run issues no validation call for it (its only network call
is the `create` one) — while a session created 24h - 1ms ago is returned,
kept in storage, still age-valid, and the first network call of the
initialization run is the backend validation for it. -/
theorem claim_C4_session_validity_boundary :
    ∀ (now : Int) (sid uuid : String)
      (validateNet : Except Api.JsError (Api.HttpResp × SessionM.ValidateData))
      (createNet : Except Api.JsError (Api.HttpResp × SessionM.CreateData)),
      SessionM.getStoredSession
          (some { sessionId := sid, customerUUID := uuid,
                  createdAt := now - SessionM.SESSION_DURATION - 1 }) now
        = (none, none)
      ∧ (SessionM.initializeSession
            (some { sessionId := sid, customerUUID := uuid,
                    createdAt := now - SessionM.SESSION_DURATION - 1 }) now
            validateNet createNet).calls
        = [SessionM.NetCall.create]
      ∧ SessionM.getStoredSession
            (some { sessionId := sid, customerUUID := uuid,
                    createdAt := now - SessionM.SESSION_DURATION + 1 }) now
        = (some { sessionId := sid, customerUUID := uuid,
                  createdAt := now - SessionM.SESSION_DURATION + 1 },
           some { sessionId := sid, customerUUID := uuid,
                  createdAt := now - SessionM.SESSION_DURATION + 1 })
      ∧ SessionM.isSessionValid
          { sessionId := sid, customerUUID := uuid,
            createdAt := now - SessionM.SESSION_DURATION + 1 } now = true
      ∧ ((SessionM.initializeSession
            (some { sessionId := sid, customerUUID := uuid,
                    createdAt := now - SessionM.SESSION_DURATION + 1 }) now
            validateNet createNet).calls).head?
        = some (SessionM.NetCall.validate uuid) := by
  intro now sid uuid validateNet createNet
  have hexp : ¬(now - (now - SessionM.SESSION_DURATION - 1) < SessionM.SESSION_DURATION) := by
    omega
  have hfresh : now - (now - SessionM.SESSION_DURATION + 1) < SessionM.SESSION_DURATION := by
    omega
  have hStoredExp : SessionM.getStoredSession
      (some { sessionId := sid, customerUUID := uuid,
              createdAt := now - SessionM.SESSION_DURATION - 1 }) now = (none, none) := by
    simp [SessionM.getStoredSession, hexp]
  have hStoredFresh : SessionM.getStoredSession
      (some { sessionId := sid, customerUUID := uuid,
              createdAt := now - SessionM.SESSION_DURATION + 1 }) now
      = (some { sessionId := sid, customerUUID := uuid,
                createdAt := now - SessionM.SESSION_DURATION + 1 },
         some { sessionId := sid, customerUUID := uuid,
                createdAt := now - SessionM.SESSION_DURATION + 1 }) := by
    simp [SessionM.getStoredSession, hfresh]
  have hValidFresh : SessionM.isSessionValid
      { sessionId := sid, customerUUID := uuid,
        createdAt := now - SessionM.SESSION_DURATION + 1 } now = true := by
    simp [SessionM.isSessionValid, hfresh]
  refine ⟨hStoredExp, ?_, hStoredFresh, hValidFresh, ?_⟩
  · simp only [SessionM.initializeSession, hStoredExp]
    cases hc : SessionM.createNewSession createNet now <;> simp [hc]
  · simp only [SessionM.initializeSession, hStoredFresh]
    rw [if_pos hValidFresh]
    split
    · split
      · simp
      · cases hc : SessionM.createNewSession createNet now <;> simp [hc]
    · simp

/-- If validation fails (thrown error, non-OK status, or non-truthy
`success`), the `ok && success` gate of `initializeSession` is false. -/
lemma validation_gate_false {net : Except Api.JsError (Api.HttpResp × SessionM.ValidateData)}
    (h : SessionM.validationFails net) :
    ((SessionM.validateSessionWithBackend net).okFlag &&
      SessionM.successOf (SessionM.validateSessionWithBackend net)) = false := by
  rcases net with e | ⟨resp, data⟩
  · simp [SessionM.validateSessionWithBackend]
  · unfold SessionM.validationFails at h
    cases hr : resp.respOk with
    | false => simp [SessionM.validateSessionWithBackend, hr]
    | true =>
      have hsucc : truthyBool data.success = false := by
        rcases h with h | h
        · rw [hr] at h; cases h
        · exact h
      simp [SessionM.validateSessionWithBackend, hr, SessionM.successOf, hsucc]

/-- A session coming out of `getStoredSession` is age-valid and was left in
storage. -/
lemma getStored_some {storage : Option SessionM.Session} {now : Int}
    {s : SessionM.Session}
    (h : (SessionM.getStoredSession storage now).1 = some s) :
    SessionM.isSessionValid s now = true ∧
      SessionM.getStoredSession storage now = (some s, some s) := by
  cases storage with
  | none => simp [SessionM.getStoredSession] at h
  | some s0 =>
    by_cases hc : now - s0.createdAt < SessionM.SESSION_DURATION
    · have hs : s0 = s := by
        simp [SessionM.getStoredSession, hc] at h
        exact h
      subst hs
      exact ⟨by simp [SessionM.isSessionValid, hc], by simp [SessionM.getStoredSession, hc]⟩
    · simp [SessionM.getStoredSession, hc] at h

/-- The fail-open run of `initializeSession`: stored session present and
age-valid, validation failed — the stored session is adopted, storage is
untouched, the initialized flag is set, the event is broadcast, and the
only network call is the validation. -/
lemma initializeSession_failopen {storage : Option SessionM.Session} {now : Int}
    {validateNet : Except Api.JsError (Api.HttpResp × SessionM.ValidateData)}
    {createNet : Except Api.JsError (Api.HttpResp × SessionM.CreateData)}
    {s : SessionM.Session}
    (hst : SessionM.getStoredSession storage now = (some s, some s))
    (hvalid : SessionM.isSessionValid s now = true)
    (hfail : SessionM.validationFails validateNet) :
    SessionM.initializeSession storage now validateNet createNet
      = { calls := [SessionM.NetCall.validate s.customerUUID]
          session := some s
          storage := some s
          initialized := true
          broadcastInit := true
          errorMsg := "" } := by
  have hgate := validation_gate_false hfail
  simp only [SessionM.initializeSession, hst]
  rw [if_pos hvalid]
  simp [hgate]

/-- C5: when an age-valid stored session exists and backend validation
fails (network/timeout error, non-OK status, or a non-success body), no
session-creation request is issued: the stored session is kept and adopted,
the initialized flag is set and the session-initialized event broadcast;
and a creation request is issued only when validation reported success with
a falsy `valid`, or when no age-valid stored session exists. -/
theorem claim_C5_fail_open :
    (∀ (s : SessionM.Session) (now : Int)
      (validateNet : Except Api.JsError (Api.HttpResp × SessionM.ValidateData))
      (createNet : Except Api.JsError (Api.HttpResp × SessionM.CreateData)),
      now - s.createdAt < SessionM.SESSION_DURATION →
      SessionM.validationFails validateNet →
      SessionM.initializeSession (some s) now validateNet createNet
        = { calls := [SessionM.NetCall.validate s.customerUUID]
            session := some s
            storage := some s
            initialized := true
            broadcastInit := true
            errorMsg := "" })
    ∧ (∀ (storage : Option SessionM.Session) (now : Int)
        (validateNet : Except Api.JsError (Api.HttpResp × SessionM.ValidateData))
        (createNet : Except Api.JsError (Api.HttpResp × SessionM.CreateData)),
        SessionM.NetCall.create
            ∈ (SessionM.initializeSession storage now validateNet createNet).calls →
        SessionM.validationSaysInvalid validateNet
          ∨ (SessionM.getStoredSession storage now).1 = none) := by
  constructor
  · intro s now validateNet createNet hage hfail
    have hst : SessionM.getStoredSession (some s) now = (some s, some s) := by
      simp [SessionM.getStoredSession, hage]
    have hvalid : SessionM.isSessionValid s now = true := by
      simp [SessionM.isSessionValid, hage]
    exact initializeSession_failopen hst hvalid hfail
  · intro storage now validateNet createNet hmem
    cases hfst : (SessionM.getStoredSession storage now).1 with
    | none => exact Or.inr rfl
    | some s =>
      obtain ⟨hvalid, hst⟩ := getStored_some hfst
      left
      by_cases hfail : SessionM.validationFails validateNet
      · exfalso
        rw [initializeSession_failopen hst hvalid hfail] at hmem
        simp at hmem
      · rcases validateNet with e | ⟨resp, data⟩
        · exact absurd trivial hfail
        · unfold SessionM.validationFails at hfail
          have hr : resp.respOk = true := by
            cases hrr : resp.respOk with
            | true => rfl
            | false => exact absurd (Or.inl hrr) hfail
          have hsucc : truthyBool data.success = true := by
            cases hss : truthyBool data.success with
            | true => rfl
            | false => exact absurd (Or.inr hss) hfail
          cases hval : truthyBool data.valid with
          | false => exact ⟨hr, hsucc, hval⟩
          | true =>
            exfalso
            have hrun : SessionM.initializeSession storage now
                (Except.ok (resp, data)) createNet
                = { calls := [SessionM.NetCall.validate s.customerUUID]
                    session := some s
                    storage := some s
                    initialized := true
                    broadcastInit := true
                    errorMsg := "" } := by
              simp only [SessionM.initializeSession, hst]
              rw [if_pos hvalid]
              simp [SessionM.validateSessionWithBackend, hr, SessionM.successOf,
                SessionM.validOf, hsucc, hval]
            rw [hrun] at hmem
            simp at hmem

/-- C5 witness: concrete fail-open run — an age-valid stored session, a
validation call that returns HTTP 500, and the resulting state. -/
theorem claim_C5_fail_open_witness :
    SessionM.initializeSession
        (some { sessionId := "s1", customerUUID := "u1", createdAt := 1000 }) 2000
        (Except.ok ({ status := 500, body := "" },
          { success := none, valid := none }))
        (Except.ok ({ status := 200, body := "" },
          { success := some true, sessionId := some "s2", customerUUID := some "u2" }))
      = { calls := [SessionM.NetCall.validate "u1"]
          session := some { sessionId := "s1", customerUUID := "u1", createdAt := 1000 }
          storage := some { sessionId := "s1", customerUUID := "u1", createdAt := 1000 }
          initialized := true
          broadcastInit := true
          errorMsg := "" } := by
  exact (claim_C5_fail_open.1
    { sessionId := "s1", customerUUID := "u1", createdAt := 1000 } 2000
    (Except.ok ({ status := 500, body := "" }, { success := none, valid := none }))
    (Except.ok ({ status := 200, body := "" },
      { success := some true, sessionId := some "s2", customerUUID := some "u2" }))
    (by decide) (by decide))

/-- C2 counterexample: with a 40s budget, an external abort signal firing at
10ms while the fetch would have succeeded at 100ms is reported as
`TimeoutError` even though the call never exceeded its `timeoutMs` budget —
so `TimeoutError` is not raised exactly on budget exhaustion, and an
external cancellation is reported as a timeout. -/
theorem claim_C2_timeout_counterexample :
    Api.fetchWithTimeout 40000 (some 10) 100 (Except.ok { status := 200, body := "" })
      = Except.error (Api.timeoutError 40000)
    ∧ 100 < 40000 := by
  constructor
  · rfl
  · decide

/-- C2 amended: `fetchWithTimeout` raises `TimeoutError` exactly when the
abort controller fires before the underlying fetch settles — and the
controller fires at the earlier of the internal `timeoutMs` deadline and
the external abort signal (first to fire cancels) — so an external abort is
also reported as `TimeoutError`; when the fetch settles first, its outcome
(success or connection-level error) propagates unchanged. -/
theorem claim_C2_timeout_amended :
    ∀ (timeoutMs : Nat) (extAbortAt : Option Nat) (fetchTime : Nat)
      (out : Except Api.JsError Api.HttpResp),
      (∀ e, out = Except.error e → e.name ≠ "AbortError") →
      (Api.effAbortTime timeoutMs extAbortAt ≤ fetchTime →
        Api.fetchWithTimeout timeoutMs extAbortAt fetchTime out
          = Except.error (Api.timeoutError timeoutMs))
      ∧ (fetchTime < Api.effAbortTime timeoutMs extAbortAt →
        Api.fetchWithTimeout timeoutMs extAbortAt fetchTime out = out) := by
  intro timeoutMs extAbortAt fetchTime out hname
  constructor
  · intro hle
    simp only [Api.fetchWithTimeout]
    rw [if_neg (not_lt.mpr hle)]
    simp [Api.abortError]
  · intro hlt
    simp only [Api.fetchWithTimeout]
    rw [if_pos hlt]
    cases out with
    | ok r => rfl
    | error e => simp [hname e rfl]

/-- C2 witness: a concrete run of each branch of the amended theorem —
the external signal firing at 3ms beats a 5ms budget and a 10ms fetch
(reported as `TimeoutError`), while a 2ms fetch beats both deadlines. -/
theorem claim_C2_timeout_amended_witness :
    Api.fetchWithTimeout 5 (some 3) 10 (Except.ok { status := 200, body := "" })
      = Except.error (Api.timeoutError 5)
    ∧ Api.fetchWithTimeout 5 (some 3) 2 (Except.ok { status := 200, body := "" })
      = Except.ok { status := 200, body := "" } := by
  constructor
  · exact (claim_C2_timeout_amended 5 (some 3) 10
      (Except.ok { status := 200, body := "" })
      (by intro e he; cases he)).1 (by decide)
  · exact (claim_C2_timeout_amended 5 (some 3) 2
      (Except.ok { status := 200, body := "" })
      (by intro e he; cases he)).2 (by decide)

/-- The invariant the shop-status registry keeps while its first request is
in flight: the first promise stays registered, exactly one network call has
been made, and every caller awaits that promise. -/
def shopInFlightInv (s : Dedup.DedupState) : Prop :=
  s.registry = some 0 ∧ s.nextPid = 1 ∧ ∀ pr ∈ s.awaits, pr.2 = 0

/-- One more shop-status arrival preserves the in-flight invariant. -/
lemma shopArrive_preserves {s : Dedup.DedupState} (h : shopInFlightInv s)
    (c : Nat) : shopInFlightInv (Dedup.shopArrive c s) := by
  obtain ⟨hreg, hpid, hawaits⟩ := h
  have harr : Dedup.shopArrive c s = { s with awaits := s.awaits ++ [(c, 0)] } := by
    unfold Dedup.shopArrive
    rw [hreg]
  rw [harr]
  refine ⟨hreg, hpid, ?_⟩
  intro pr hpr
  rcases List.mem_append.mp hpr with hpr | hpr
  · exact hawaits pr hpr
  · rw [List.mem_singleton.mp hpr]

/-- A whole tail of shop-status arrivals preserves the invariant. -/
lemma shopArrivals_preserve (callers : List Nat) :
    ∀ s : Dedup.DedupState, shopInFlightInv s →
      shopInFlightInv (callers.foldl (fun st c => Dedup.shopArrive c st) s) := by
  induction callers with
  | nil => intro s h; exact h
  | cons c rest ih =>
    intro s h
    exact ih _ (shopArrive_preserves h c)

/-- C1 counterexample: three concurrent `createNewSession` callers arriving
while the first request is still in flight (nothing has settled) cause two
network calls, not one — the second caller's reuse clears the registry
before the promise settles (already visible after two arrivals), so the
third caller starts a fresh request and awaits a different promise. -/
theorem claim_C1_dedup_counterexample :
    (Dedup.arrivalsSession [0, 1, 2]).settled = []
    ∧ (Dedup.arrivalsSession [0, 1, 2]).nextPid = 2
    ∧ (Dedup.arrivalsSession [0, 1]).settled = []
    ∧ (Dedup.arrivalsSession [0, 1]).registry = none
    ∧ (Dedup.arrivalsSession [0, 1, 2]).awaits = [(0, 0), (1, 0), (2, 1)] := by
  refine ⟨rfl, rfl, rfl, rfl, rfl⟩

/-- C1 amended: the shop-status manager satisfies the dedup invariant as
stated — any number of callers arriving while the first request is in
flight make exactly one network call, all await the same promise, the
registry stays populated until the promise settles and is cleared when it
does.  For session creation and validation the invariant holds only up to
the first reuse: two concurrent callers share one network call and one
promise, but the reusing caller's `finally` clears the registry
synchronously, while the request is still in flight. -/
theorem claim_C1_dedup_amended :
    (∀ callers : List Nat, callers ≠ [] →
      (Dedup.arrivalsShop callers).nextPid = 1
      ∧ (Dedup.arrivalsShop callers).registry = some 0
      ∧ ∀ pr ∈ (Dedup.arrivalsShop callers).awaits, pr.2 = 0)
    ∧ (∀ (callers : List Nat) (p : Nat),
        (Dedup.shopSettle p (Dedup.arrivalsShop callers)).registry = none)
    ∧ (∀ c0 c1 : Nat,
        (Dedup.arrivalsSession [c0, c1]).nextPid = 1
        ∧ (Dedup.arrivalsSession [c0, c1]).awaits = [(c0, 0), (c1, 0)]
        ∧ (Dedup.arrivalsSession [c0, c1]).registry = none) := by
  refine ⟨?_, ?_, ?_⟩
  · intro callers hne
    cases callers with
    | nil => exact absurd rfl hne
    | cons c rest =>
      have hbase : shopInFlightInv (Dedup.shopArrive c Dedup.initState) := by
        refine ⟨rfl, rfl, ?_⟩
        intro pr hpr
        simp [Dedup.shopArrive, Dedup.initState] at hpr
        rw [hpr]
      have hfold : Dedup.arrivalsShop (c :: rest)
          = rest.foldl (fun st caller => Dedup.shopArrive caller st)
              (Dedup.shopArrive c Dedup.initState) := rfl
      rw [hfold]
      obtain ⟨h1, h2, h3⟩ := shopArrivals_preserve rest _ hbase
      exact ⟨h2, h1, h3⟩
  · intro callers p
    simp [Dedup.shopSettle]
  · intro c0 c1
    exact ⟨rfl, rfl, rfl⟩

/-- C1 witness: the amended theorem applied to three concrete shop-status
callers and two concrete session-create callers. -/
theorem claim_C1_dedup_amended_witness :
    (Dedup.arrivalsShop [7, 8, 9]).nextPid = 1
    ∧ (Dedup.arrivalsShop [7, 8, 9]).registry = some 0
    ∧ (Dedup.shopSettle 0 (Dedup.arrivalsShop [7, 8, 9])).registry = none
    ∧ (Dedup.arrivalsSession [4, 5]).awaits = [(4, 0), (5, 0)] := by
  have h := claim_C1_dedup_amended
  exact ⟨(h.1 [7, 8, 9] (by decide)).1, (h.1 [7, 8, 9] (by decide)).2.1,
    h.2.1 [7, 8, 9] 0, (h.2.2 4 5).2.1⟩

/-- A failed fallback attempt (throw or non-2xx) moves the loop to the next
server, spending one unit of budget. -/
lemma tryFallbacks_step_fail {env : String → Except Api.JsError Api.HttpResp}
    {srv : String} {rest : List String} {budget : Nat} {st : Api.LBState}
    (hb : budget ≠ 0) (h : Api.attemptFails (env srv)) :
    Api.tryFallbacks env (srv :: rest) budget st
      = Api.tryFallbacks env rest (budget - 1) st := by
  cases henv : env srv with
  | ok r1 =>
    rw [henv] at h
    simp only [Api.attemptFails] at h
    simp [Api.tryFallbacks, hb, henv, h]
  | error e => simp [Api.tryFallbacks, hb, henv]

/-- A 2xx fallback response is returned and its server becomes sticky. -/
lemma tryFallbacks_step_ok {env : String → Except Api.JsError Api.HttpResp}
    {srv : String} {rest : List String} {budget : Nat} {st : Api.LBState}
    {r : Api.HttpResp}
    (hb : budget ≠ 0) (h : env srv = Except.ok r) (hr : r.respOk = true) :
    Api.tryFallbacks env (srv :: rest) budget st
      = (Except.ok r, { st with selectedServer := some srv }) := by
  simp [Api.tryFallbacks, hb, h, hr]

/-- When the sticky attempt fails with `retryOnFailure` and the default
`maxRetries = 3`, `fetchWithLoadBalancer` clears the sticky assignment and
runs the fallback loop over the remaining pool members in order. -/
lemma lb_failover {env : String → Except Api.JsError Api.HttpResp}
    {sticky : String} {idx : Nat}
    (hmem : Api.BACKEND_SERVERS.contains sticky = true)
    (hfail0 : Api.attemptFails (env sticky)) :
    Api.fetchWithLoadBalancer env true 3
        { selectedServer := some sticky, currentServerIndex := idx }
      = Api.tryFallbacks env
          (Api.BACKEND_SERVERS.filter (fun s => s != sticky))
          (min (Api.BACKEND_SERVERS.filter (fun s => s != sticky)).length 2)
          { selectedServer := none, currentServerIndex := idx } := by
  have hmem2 : sticky ∈ Api.BACKEND_SERVERS := by simpa using hmem
  have hsticky : Api.getStickyServer
      { selectedServer := some sticky, currentServerIndex := idx }
      = (sticky, { selectedServer := some sticky, currentServerIndex := idx }) := by
    simp [Api.getStickyServer, hmem2]
  cases henv : env sticky with
  | ok r0 =>
    rw [henv] at hfail0
    simp only [Api.attemptFails] at hfail0
    simp [Api.fetchWithLoadBalancer, hsticky, henv, hfail0, Api.clearStickyServer]
  | error e0 =>
    simp [Api.fetchWithLoadBalancer, hsticky, henv, Api.clearStickyServer]

/-- C3: with `retryOnFailure` and the default retry budget over the fixed
pool of three servers, when the sticky server's attempt and the first
fallback fail (throw or non-2xx) and the last remaining server answers 2xx,
that response is returned and the last server is persisted as the new
sticky server; and when every attempt fails, the sticky assignment is left
cleared and the terminal all-backend-servers-failed error is raised. -/
theorem claim_C3_failover_completeness :
    ∀ (env env2 : String → Except Api.JsError Api.HttpResp)
      (sticky f1 f2 : String) (idx : Nat) (r : Api.HttpResp),
      Api.BACKEND_SERVERS.contains sticky = true →
      Api.BACKEND_SERVERS.filter (fun s => s != sticky) = [f1, f2] →
      Api.attemptFails (env sticky) →
      Api.attemptFails (env f1) →
      env f2 = Except.ok r →
      r.respOk = true →
      (Api.fetchWithLoadBalancer env true 3
          { selectedServer := some sticky, currentServerIndex := idx }
        = (Except.ok r, { selectedServer := some f2, currentServerIndex := idx }))
      ∧ (Api.attemptFails (env2 sticky) → Api.attemptFails (env2 f1) →
          Api.attemptFails (env2 f2) →
          Api.fetchWithLoadBalancer env2 true 3
              { selectedServer := some sticky, currentServerIndex := idx }
            = (Except.error Api.allServersFailedError,
               { selectedServer := none, currentServerIndex := idx })) := by
  intro env env2 sticky f1 f2 idx r hmem hfilter hfail0 hfail1 hok2 hr2
  constructor
  · rw [lb_failover hmem hfail0, hfilter]
    norm_num
    rw [tryFallbacks_step_fail (by norm_num) hfail1]
    norm_num
    exact tryFallbacks_step_ok (by norm_num) hok2 hr2
  · intro h0 h1 h2
    rw [lb_failover hmem h0, hfilter]
    norm_num
    rw [tryFallbacks_step_fail (by norm_num) h1]
    norm_num
    rw [tryFallbacks_step_fail (by norm_num) h2]
    simp [Api.tryFallbacks]

/-- C3 witness: a concrete environment where the sticky server b12 returns
503, b13 throws, and b14 returns 200; and one where every server fails. -/
theorem claim_C3_failover_completeness_witness :
    (Api.fetchWithLoadBalancer
        (fun s =>
          if s = "https://b14.prane.in/api" then
            Except.ok { status := 200, body := "ok" }
          else if s = "https://b13.prane.in/api" then
            Except.error { name := "TypeError", message := "Failed to fetch" }
          else Except.ok { status := 503, body := "down" })
        true 3 { selectedServer := some "https://b12.prane.in/api", currentServerIndex := 0 }
      = (Except.ok { status := 200, body := "ok" },
         { selectedServer := some "https://b14.prane.in/api", currentServerIndex := 0 }))
    ∧ (Api.fetchWithLoadBalancer
        (fun _ => Except.ok { status := 500, body := "" })
        true 3 { selectedServer := some "https://b12.prane.in/api", currentServerIndex := 0 }
      = (Except.error Api.allServersFailedError,
         { selectedServer := none, currentServerIndex := 0 })) := by
  have h := claim_C3_failover_completeness
    (fun s =>
      if s = "https://b14.prane.in/api" then
        Except.ok { status := 200, body := "ok" }
      else if s = "https://b13.prane.in/api" then
        Except.error { name := "TypeError", message := "Failed to fetch" }
      else Except.ok { status := 503, body := "down" })
    (fun _ => Except.ok { status := 500, body := "" })
    "https://b12.prane.in/api" "https://b13.prane.in/api" "https://b14.prane.in/api"
    0 { status := 200, body := "ok" }
    (by decide) (by decide) (by decide) (by decide) (by decide) (by decide)
  exact ⟨h.1, h.2 (by decide) (by decide) (by decide)⟩

/-- A file is registered exactly when it carries an id whose trim is
non-empty. -/
lemma registered_iff {f : Checkout.CheckFile} :
    Checkout.hasRegisteredId f = true
      ↔ ∃ s, f.backendFileId = some s ∧ (jsTrim s).isEmpty = false := by
  unfold Checkout.hasRegisteredId
  cases hb : f.backendFileId with
  | none => simp
  | some s => simp [hb]

/-- An unregistered file contributes nothing to the collected ids. -/
lemma collect_cons_unreg {f : Checkout.CheckFile} {rest : List Checkout.CheckFile}
    (h : Checkout.hasRegisteredId f = false) :
    Checkout.collectFileIds (f :: rest) = Checkout.collectFileIds rest := by
  unfold Checkout.hasRegisteredId at h
  unfold Checkout.collectFileIds
  rw [List.filterMap_cons]
  cases hb : f.backendFileId with
  | none => simp [hb]
  | some s =>
    rw [hb] at h
    simp only [Bool.not_eq_false'] at h
    simp [hb, h, Checkout.collectFileIds]

/-- A registered file contributes its id to the collected ids. -/
lemma collect_cons_reg {f : Checkout.CheckFile} {rest : List Checkout.CheckFile}
    {s : String} (hb : f.backendFileId = some s) (h : (jsTrim s).isEmpty = false) :
    Checkout.collectFileIds (f :: rest) = s :: Checkout.collectFileIds rest := by
  unfold Checkout.collectFileIds
  simp [List.filterMap_cons, hb, h]

/-- At most one id is collected per staged file. -/
lemma collect_le (files : List Checkout.CheckFile) :
    (Checkout.collectFileIds files).length ≤ files.length := by
  induction files with
  | nil => simp [Checkout.collectFileIds]
  | cons f rest ih =>
    cases hreg : Checkout.hasRegisteredId f with
    | false =>
      rw [collect_cons_unreg hreg]
      exact Nat.le_succ_of_le ih
    | true =>
      obtain ⟨s, hb, ht⟩ := registered_iff.mp hreg
      rw [collect_cons_reg hb ht]
      simpa using ih

/-- An unregistered staged file makes the collected-id count strictly
smaller than the staged-file count. -/
lemma collect_lt {files : List Checkout.CheckFile} {f : Checkout.CheckFile}
    (hf : f ∈ files) (h : Checkout.hasRegisteredId f = false) :
    (Checkout.collectFileIds files).length < files.length := by
  induction files with
  | nil => cases hf
  | cons g rest ih =>
    rcases List.mem_cons.mp hf with rfl | hf'
    · rw [collect_cons_unreg h]
      exact Nat.lt_succ_of_le (collect_le rest)
    · cases hreg : Checkout.hasRegisteredId g with
      | false =>
        rw [collect_cons_unreg hreg]
        exact Nat.lt_succ_of_lt (ih hf')
      | true =>
        obtain ⟨s, hb, ht⟩ := registered_iff.mp hreg
        rw [collect_cons_reg hb ht]
        simpa using ih hf'

/-- A registered staged file makes the collected-id list non-empty. -/
lemma collect_pos {files : List Checkout.CheckFile} {g : Checkout.CheckFile}
    (hg : g ∈ files) (h : Checkout.hasRegisteredId g = true) :
    0 < (Checkout.collectFileIds files).length := by
  induction files with
  | nil => cases hg
  | cons f rest ih =>
    cases hreg : Checkout.hasRegisteredId f with
    | true =>
      obtain ⟨s, hb, ht⟩ := registered_iff.mp hreg
      rw [collect_cons_reg hb ht]
      simp
    | false =>
      rw [collect_cons_unreg hreg]
      rcases List.mem_cons.mp hg with rfl | hg'
      · rw [h] at hreg; cases hreg
      · exact ih hg'

/-- C6 amended: an order-creation attempt with an unregistered staged file
is always rejected locally (no `/order/create` request), and when at least
one other file is registered the rejection message is built from the names
of the still-unregistered files (the all-unregistered case yields the
generic no-uploaded-files message instead); order creation proceeds only
when the count of collected ids — before deduplication — equals the staged
file count, and the POST then carries the deduplicated ids. -/
theorem claim_C6_checkout_gating_amended :
    ∀ (name : String) (files : List Checkout.CheckFile),
      ((∃ f ∈ files, Checkout.hasRegisteredId f = false) →
        ∀ ids, Checkout.handlePaymentMethod name files
          ≠ Checkout.CheckoutOutcome.orderCreate ids)
      ∧ ((jsTrim name).isEmpty = false →
         (∃ f ∈ files, Checkout.hasRegisteredId f = false) →
         (∃ g ∈ files, Checkout.hasRegisteredId g = true) →
         Checkout.handlePaymentMethod name files
           = Checkout.CheckoutOutcome.rejected
               (if (jsJoin ", "
                     ((Checkout.unregisteredFiles files).map (fun f => f.name))).isEmpty then
                 "Some files are not registered yet. Please wait until all files finish registering and try again."
               else
                 "These files are still registering: "
                   ++ jsJoin ", " ((Checkout.unregisteredFiles files).map (fun f => f.name))
                   ++ ". Please wait a moment and try again."))
      ∧ (∀ ids, Checkout.handlePaymentMethod name files
            = Checkout.CheckoutOutcome.orderCreate ids →
          (Checkout.collectFileIds files).length = files.length
          ∧ ids = Checkout.dedupFirst (Checkout.collectFileIds files)) := by
  intro name files
  have horder : ∀ ids, Checkout.handlePaymentMethod name files
      = Checkout.CheckoutOutcome.orderCreate ids →
      (Checkout.collectFileIds files).length = files.length
      ∧ ids = Checkout.dedupFirst (Checkout.collectFileIds files) := by
    intro ids h
    unfold Checkout.handlePaymentMethod at h
    by_cases h1 : (jsTrim name).isEmpty
    · rw [if_pos h1] at h
      cases h
    · rw [if_neg h1] at h
      by_cases h2 : (Checkout.collectFileIds files).length = 0
      · rw [if_pos h2] at h
        cases h
      · rw [if_neg h2] at h
        by_cases h3 : (Checkout.collectFileIds files).length ≠ files.length
        · rw [if_pos h3] at h
          cases h
        · rw [if_neg h3] at h
          push_neg at h3
          cases h
          exact ⟨h3, rfl⟩
  refine ⟨?_, ?_, horder⟩
  · rintro ⟨f, hf, hreg⟩ ids h
    have hlt := collect_lt hf hreg
    have := (horder ids h).1
    omega
  · intro h1 ⟨f, hf, hregf⟩ ⟨g, hg, hregg⟩
    have hlt := collect_lt hf hregf
    have hpos := collect_pos hg hregg
    unfold Checkout.handlePaymentMethod
    rw [if_neg (by simp [h1])]
    rw [if_neg (by omega)]
    rw [if_pos (by omega)]

/-- The single staged file of the counterexample: no backend id. -/
def c6file : Checkout.CheckFile :=
  { name := "doc.pdf", isPdfMime := true, pages := 1, selectedPages := [],
    pageSelection := "all", copies := 1, paperSize := "A4", colorMode := "bw",
    paperType := none, duplex := none, backendFileId := none }

/-- C6 counterexample: with a single staged file that lacks a backend id,
the attempt is rejected locally, but the surfaced message is the generic
no-uploaded-files one and does not name the file. -/
theorem claim_C6_checkout_gating_counterexample :
    Checkout.handlePaymentMethod "Alice" [c6file]
      = Checkout.CheckoutOutcome.rejected
          "No uploaded files registered. Please upload files again."
    ∧ jsIncludes "No uploaded files registered. Please upload files again." "doc.pdf"
        = false
    ∧ Checkout.hasRegisteredId c6file = false := by
  refine ⟨rfl, by decide, rfl⟩

/-- The registered staged file of the C6 witness. -/
def c6fileReg : Checkout.CheckFile :=
  { name := "a.pdf", isPdfMime := true, pages := 1, selectedPages := [],
    pageSelection := "all", copies := 1, paperSize := "A4", colorMode := "bw",
    paperType := none, duplex := none, backendFileId := some "id1" }

/-- The unregistered staged file of the C6 witness. -/
def c6fileUnreg : Checkout.CheckFile :=
  { name := "b.pdf", isPdfMime := true, pages := 1, selectedPages := [],
    pageSelection := "all", copies := 1, paperSize := "A4", colorMode := "bw",
    paperType := none, duplex := none, backendFileId := none }

/-- C6 witness: one registered and one unregistered staged file — the
attempt is rejected with a message naming the unregistered file. -/
theorem claim_C6_checkout_gating_amended_witness :
    Checkout.handlePaymentMethod "Alice" [c6fileReg, c6fileUnreg]
      = Checkout.CheckoutOutcome.rejected
          "These files are still registering: b.pdf. Please wait a moment and try again." := by
  have h := (claim_C6_checkout_gating_amended "Alice" [c6fileReg, c6fileUnreg]).2.1
    (by decide) ⟨c6fileUnreg, by decide, by decide⟩ ⟨c6fileReg, by decide, by decide⟩
  rw [h]
  rfl

/-- `finishRegistration` reports exactly the attempts it is handed. -/
lemma finishRegistration_attempts (resp : Upload.RegResp)
    (attempts : List Upload.PayloadKind) :
    (Upload.finishRegistration resp attempts).attempts = attempts := by
  unfold Upload.finishRegistration
  by_cases h : truthyStr (Upload.extractFileId resp.ids) = true <;> simp [h]

/-- Reaching the `/order/create` POST forces the pre-dedup collected-id
count to equal the staged-file count, and the POST carries the
deduplicated ids. -/
lemma orderCreate_inv {name : String} {files : List Checkout.CheckFile}
    {ids : List String}
    (h : Checkout.handlePaymentMethod name files
      = Checkout.CheckoutOutcome.orderCreate ids) :
    (Checkout.collectFileIds files).length = files.length
      ∧ ids = Checkout.dedupFirst (Checkout.collectFileIds files) := by
  unfold Checkout.handlePaymentMethod at h
  by_cases h1 : (jsTrim name).isEmpty
  · rw [if_pos h1] at h
    cases h
  · rw [if_neg h1] at h
    by_cases h2 : (Checkout.collectFileIds files).length = 0
    · rw [if_pos h2] at h
      cases h
    · rw [if_neg h2] at h
      by_cases h3 : (Checkout.collectFileIds files).length ≠ files.length
      · rw [if_pos h3] at h
        cases h
      · rw [if_neg h3] at h
        push_neg at h3
        cases h
        exact ⟨h3, rfl⟩

/-- C7: a first registration response of HTTP 400 whose body contains
`MinRequestBodyDataRate` triggers exactly one automatic retry — a second
`/customer/upload` attempt with the JSON payload, which carries exactly the
same fields as the multipart form; any other non-2xx first response is not
retried and raises an error carrying that status and body text; and a
non-2xx JSON retry is surfaced as an error carrying its status and
truncated body, with no further attempts. -/
theorem claim_C7_registration_fallback :
    (∀ (net : Upload.PayloadKind → Except Api.JsError Upload.RegResp)
      (r1 : Upload.RegResp),
      net Upload.PayloadKind.formData = Except.ok r1 →
      ((r1.status = 400 → jsIncludes r1.body "MinRequestBodyDataRate" = true →
        (Upload.registerFileWithBackend net).attempts
          = [Upload.PayloadKind.formData, Upload.PayloadKind.json])
      ∧ (r1.respOk = false →
         ¬(r1.status = 400 ∧ jsIncludes r1.body "MinRequestBodyDataRate" = true) →
         (Upload.registerFileWithBackend net).attempts = [Upload.PayloadKind.formData]
         ∧ (Upload.registerFileWithBackend net).result
            = Except.error
                ("Failed to register file (" ++ toString r1.status ++ ") " ++ r1.body))
      ∧ (∀ r2, net Upload.PayloadKind.json = Except.ok r2 →
          r1.status = 400 → jsIncludes r1.body "MinRequestBodyDataRate" = true →
          r2.respOk = false →
          (Upload.registerFileWithBackend net).attempts
            = [Upload.PayloadKind.formData, Upload.PayloadKind.json]
          ∧ (Upload.registerFileWithBackend net).result
            = Except.error
                ("Failed to register file (" ++ toString r2.status ++ ") "
                  ++ jsTake r2.body 300))))
    ∧ (∀ (sid uuid url : String) (fileObj : Upload.RegFileObj),
        Upload.formFields sid uuid fileObj url
          = Upload.jsonPayloadFields (Upload.jsonPayload sid uuid fileObj url)) := by
  constructor
  · intro net r1 hn
    have hstat400 : ∀ (h : r1.status = 400), r1.respOk = false := by
      intro h
      simp [Upload.RegResp.respOk, h]
    refine ⟨?_, ?_, ?_⟩
    · intro h400 hinc
      simp only [Upload.registerFileWithBackend, hn]
      rw [if_neg (by simp [hstat400 h400])]
      rw [if_pos (by simp [h400, hinc])]
      cases hj : net Upload.PayloadKind.json with
      | error e => simp
      | ok r2 =>
        dsimp only
        by_cases hr2 : r2.respOk = true
        · rw [if_pos hr2]
          exact finishRegistration_attempts r2 _
        · rw [if_neg hr2]
    · intro hnok hnot
      have hcond : ¬(r1.status == 400 && jsIncludes r1.body "MinRequestBodyDataRate") = true := by
        intro hc
        simp only [Bool.and_eq_true, beq_iff_eq] at hc
        exact hnot ⟨hc.1, hc.2⟩
      simp only [Upload.registerFileWithBackend, hn]
      rw [if_neg (by simp [hnok])]
      rw [if_neg hcond]
      exact ⟨rfl, rfl⟩
    · intro r2 hj h400 hinc hr2
      simp only [Upload.registerFileWithBackend, hn]
      rw [if_neg (by simp [hstat400 h400])]
      rw [if_pos (by simp [h400, hinc])]
      rw [hj]
      dsimp only
      rw [if_neg (by simp [hr2])]
      exact ⟨rfl, rfl⟩
  · intro sid uuid url fileObj
    rfl

/-- A registration response body carrying no id under any recognized key. -/
def emptyIds : Upload.RegJson :=
  { fileId := none, fileIdCap := none, fileIdUpper := none,
    idLower := none, idCap := none, idUpper := none, file := none }

/-- The MinRequestBodyDataRate first response of the C7 witness. -/
def c7net : Upload.PayloadKind → Except Api.JsError Upload.RegResp :=
  fun kind =>
    match kind with
    | Upload.PayloadKind.formData =>
      Except.ok
        { status := 400
          body := "Bad Request: MinRequestBodyDataRate not satisfied"
          ids := emptyIds }
    | Upload.PayloadKind.json =>
      Except.ok { status := 200, body := "", ids := emptyIds }

/-- A first response that is a plain 400 without the marker. -/
def c7netOther : Upload.PayloadKind → Except Api.JsError Upload.RegResp :=
  fun kind =>
    match kind with
    | Upload.PayloadKind.formData =>
      Except.ok { status := 400, body := "validation failed", ids := emptyIds }
    | Upload.PayloadKind.json =>
      Except.ok { status := 200, body := "", ids := emptyIds }

/-- C7 witness: the marker 400 response is retried once with JSON; the
plain 400 response is not retried and surfaces status and body. -/
theorem claim_C7_registration_fallback_witness :
    (Upload.registerFileWithBackend c7net).attempts
      = [Upload.PayloadKind.formData, Upload.PayloadKind.json]
    ∧ (Upload.registerFileWithBackend c7netOther).attempts
      = [Upload.PayloadKind.formData]
    ∧ (Upload.registerFileWithBackend c7netOther).result
      = Except.error "Failed to register file (400) validation failed" := by
  have h1 := (claim_C7_registration_fallback.1 c7net
    { status := 400
      body := "Bad Request: MinRequestBodyDataRate not satisfied"
      ids := emptyIds } (by rfl)).1 rfl (by decide)
  have h2 := (claim_C7_registration_fallback.1 c7netOther
    { status := 400, body := "validation failed", ids := emptyIds } (by rfl)).2.1
    (by decide) (by decide)
  exact ⟨h1, h2.1, h2.2⟩

/-- C9: a 2xx registration response carrying no id under any recognized key
marks the file's progress row completed and resolves with the empty string
without writing `backendFileId`; a batch whose rows are all completed
auto-advances to checkout (zero errors); and any staged file without a
`backendFileId` still makes the local order-creation gate reject — no
`/order/create` request can be issued for such a batch. -/
theorem claim_C9_empty_fileid_completed :
    (∀ (net : Upload.PayloadKind → Except Api.JsError Upload.RegResp)
      (r1 : Upload.RegResp),
      net Upload.PayloadKind.formData = Except.ok r1 →
      r1.respOk = true →
      truthyStr (Upload.extractFileId r1.ids) = false →
      (Upload.registerFileWithBackend net).progress = Upload.ProgStatus.completed
      ∧ (Upload.registerFileWithBackend net).result = Except.ok ""
      ∧ (Upload.registerFileWithBackend net).backendFileIdSet = none)
    ∧ (∀ rows : List Upload.ProgStatus, rows ≠ [] →
        (∀ s ∈ rows, s = Upload.ProgStatus.completed) →
        Upload.modalAutoAdvance rows = true)
    ∧ (∀ (name : String) (files : List Checkout.CheckFile)
        (f : Checkout.CheckFile),
        f ∈ files → f.backendFileId = none →
        ∀ ids, Checkout.handlePaymentMethod name files
          ≠ Checkout.CheckoutOutcome.orderCreate ids) := by
  refine ⟨?_, ?_, ?_⟩
  · intro net r1 hn hok hid
    simp only [Upload.registerFileWithBackend, hn]
    rw [if_pos hok]
    unfold Upload.finishRegistration
    rw [if_neg (by simp [hid])]
    exact ⟨rfl, rfl, rfl⟩
  · intro rows hne hall
    unfold Upload.modalAutoAdvance
    have h1 : rows.all
        (fun s => s == Upload.ProgStatus.completed || s == Upload.ProgStatus.errored)
        = true := by
      rw [List.all_eq_true]
      intro s hs
      rw [hall s hs]
      rfl
    have h2 : rows.any (fun s => s == Upload.ProgStatus.errored) = false := by
      rw [List.any_eq_false]
      intro s hs
      rw [hall s hs]
      decide
    have h3 : rows.isEmpty = false := by
      cases rows with
      | nil => exact absurd rfl hne
      | cons a rest => rfl
    rw [h1, h2, h3]
    rfl
  · intro name files f hf hnone ids h
    have hreg : Checkout.hasRegisteredId f = false := by
      unfold Checkout.hasRegisteredId
      rw [hnone]
    have hlt := collect_lt hf hreg
    have heq := (orderCreate_inv h).1
    omega

/-- The no-id 2xx registration environment of the C9 witness. -/
def c9net : Upload.PayloadKind → Except Api.JsError Upload.RegResp :=
  fun _ => Except.ok { status := 200, body := "\x7b\x7d", ids := emptyIds }

/-- The staged file of the C9 witness: uploaded but no backend id. -/
def c9file : Checkout.CheckFile :=
  { name := "scan.pdf", isPdfMime := true, pages := 2, selectedPages := [],
    pageSelection := "all", copies := 1, paperSize := "A4", colorMode := "bw",
    paperType := none, duplex := none, backendFileId := none }

/-- C9 witness: the empty-id 2xx response marks the row completed with no
id written, a two-row all-completed batch auto-advances, and the checkout
gate still rejects the batch containing the id-less file. -/
theorem claim_C9_empty_fileid_completed_witness :
    (Upload.registerFileWithBackend c9net).progress = Upload.ProgStatus.completed
    ∧ (Upload.registerFileWithBackend c9net).backendFileIdSet = none
    ∧ Upload.modalAutoAdvance
        [Upload.ProgStatus.completed, Upload.ProgStatus.completed] = true
    ∧ Checkout.handlePaymentMethod "Alice" [c9file]
        ≠ Checkout.CheckoutOutcome.orderCreate ["x"] := by
  have h1 := claim_C9_empty_fileid_completed.1 c9net
    { status := 200, body := "\x7b\x7d", ids := emptyIds } (by rfl) (by decide) (by decide)
  have h2 := claim_C9_empty_fileid_completed.2.1
    [Upload.ProgStatus.completed, Upload.ProgStatus.completed] (by decide) (by decide)
  have h3 := claim_C9_empty_fileid_completed.2.2 "Alice" [c9file] c9file
    (by decide) (by decide) ["x"]
  exact ⟨h1.1, h1.2.2, h2, h3⟩
